import Mathlib

set_option maxRecDepth 4000

/-!
Shallow embedding of `src/vitis/mpu9250/mpu9250.c`: a bare-metal MPU9250 /
AK8963 polling driver over a Xilinx AXI IIC bus.

The bus primitive (`XIic_Send` / `XIic_Recv`) is external; it is modelled as
an oracle whose responses may depend on the transaction history so far, so
that all theorems quantify over every possible behaviour of the hardware.
The history doubles as an observable trace of the bus transactions the
program issues.  Console output (`print`, `printf`, `xil_printf`) is
modelled as an output-line list, and `usleep` as a list of recorded sleep
durations.  C `float` arithmetic is modelled as exact rational arithmetic.
-/

namespace MPU9250

/-- One bus transaction as issued by the program: a master send (payload
bytes, stop vs. repeated start) or a master receive (byte count, stop). -/
inductive Txn where
  | send (dev : Nat) (data : List Nat) (stop : Bool)
  | recv (dev : Nat) (len : Nat) (stop : Bool)
deriving DecidableEq

/-- The bus environment: given the transaction history, the device address
and the request, it yields the status the driver call returns, and for a
receive also the bytes deposited in the buffer of the caller. -/
structure Bus where
  sendStatus : List Txn → Nat → List Nat → Bool → Int
  recvResult : List Txn → Nat → Nat → Bool → Int × List Nat

/-- One line on the console: a fixed diagnostic text, the WHO_AM_I report,
the ASA report, the converted accel/temp/gyro line, or the converted
magnetometer line. -/
inductive OutLine where
  | text (s : String)
  | whoami (v : Nat)
  | asaReport (a0 a1 a2 : Nat)
  | mpuLine (ax ay az t gx gy gz : ℚ)
  | magLine (mx my mz : ℚ)
deriving DecidableEq

/-- Program-visible state: bus transaction history, the global `ASA[3]`
buffer, console output so far, and the `usleep` durations performed. -/
structure PState where
  hist : List Txn
  ASA : List Nat
  out : List OutLine
  slept : List Nat
deriving DecidableEq

/-- `#define MPU_ADDR 0x68` -/
def MPU_ADDR : Nat := 0x68

/-- `#define MAG_ADDR 0x0C` -/
def MAG_ADDR : Nat := 0x0C

/-- `XIic_Send`: asks the oracle for the status and records the transaction. -/
def xiicSend (bus : Bus) (s : PState) (dev : Nat) (data : List Nat) (stop : Bool) :
    Int × PState :=
  (bus.sendStatus s.hist dev data stop,
   { s with hist := s.hist ++ [Txn.send dev data stop] })

/-- `XIic_Recv`: asks the oracle for the status and deposited bytes (at most
`len` of them, each a byte) and records the transaction. -/
def xiicRecv (bus : Bus) (s : PState) (dev len : Nat) (stop : Bool) :
    Int × List Nat × PState :=
  let r := bus.recvResult s.hist dev len stop
  (r.1, (r.2.take len).map (fun b => b % 256),
   { s with hist := s.hist ++ [Txn.recv dev len stop] })

/-- Deposit received bytes over the front of a caller-owned buffer; cells the
receive did not reach keep their previous contents. -/
def overwrite : List Nat → List Nat → List Nat
  | old, [] => old
  | [], _ => []
  | _ :: old, b :: bs => b :: overwrite old bs

/-- `IIC_WriteReg`: two-byte payload (register, data), stop condition. -/
def IIC_WriteReg (bus : Bus) (s : PState) (DevAddr RegAddr Data : Nat) :
    Int × PState :=
  xiicSend bus s DevAddr [RegAddr, Data] true

/-- `IIC_ReadReg`: one-byte register-address send with repeated start; if it
does not report exactly one byte sent, return that status without receiving;
otherwise receive `len` bytes with stop and return the receive status and the
updated buffer. -/
def IIC_ReadReg (bus : Bus) (s : PState) (DevAddr RegAddr : Nat)
    (buf : List Nat) (len : Nat) : Int × List Nat × PState :=
  let r := xiicSend bus s DevAddr [RegAddr] false
  if r.1 ≠ 1 then (r.1, buf, r.2)
  else
    let r2 := xiicRecv bus r.2 DevAddr len true
    (r2.1, overwrite buf r2.2.1, r2.2.2)

/-- `#define ACCEL_SENS 4096.0f` (±8g). -/
def ACCEL_SENS : ℚ := 4096

/-- `#define GYRO_SENS 16.4f` (±2000 dps). -/
def GYRO_SENS : ℚ := 16.4

/-- `(hi << 8) | lo` stored into an `int16_t`. -/
def toInt16 (hi lo : Nat) : Int :=
  let v := ((hi % 256) <<< 8) ||| (lo % 256)
  if v < 32768 then (v : Int) else (v : Int) - 65536

/-- `ax / ACCEL_SENS` -/
def accel_g (raw : Int) : ℚ := (raw : ℚ) / ACCEL_SENS

/-- `temp / 340.0f + 36.53f` -/
def temp_c (raw : Int) : ℚ := (raw : ℚ) / 340 + 36.53

/-- `gx / GYRO_SENS` -/
def gyro_dps (raw : Int) : ℚ := (raw : ℚ) / GYRO_SENS

/-- `((ASA[i] - 128) / 256.0f) + 1.0f` (the `uint8_t` is promoted to `int`
before the subtraction, so the numerator may be negative). -/
def adjFactor (asa : Nat) : ℚ := (((asa : ℤ) - 128 : ℤ) : ℚ) / 256 + 1

/-- `m * adj * 0.15f` -/
def mag_uT (raw : Int) (asa : Nat) : ℚ := (raw : ℚ) * adjFactor asa * 0.15

/-- `init_mpu9250`: on `XIic_Initialize` failure print the error and return;
otherwise perform the write/sleep/read sequence of the source, storing the
fuse-ROM ASA bytes and then re-reading them into the same global buffer.
All `IIC_WriteReg` return values are discarded, as in the source. -/
def init_mpu9250 (bus : Bus) (Status : Int) (s : PState) : PState :=
  if Status ≠ 0 then
    { s with out := s.out ++ [OutLine.text "Error inicializando IIC\r\n"] }
  else
    let s := (IIC_WriteReg bus s MPU_ADDR 0x6B 0x00).2
    let s := { s with slept := s.slept ++ [1000] }
    let s := (IIC_WriteReg bus s MPU_ADDR 0x1A 0x03).2
    let s := (IIC_WriteReg bus s MPU_ADDR 0x1B 0x18).2
    let s := (IIC_WriteReg bus s MPU_ADDR 0x1C 0x10).2
    let s := (IIC_WriteReg bus s MPU_ADDR 0x1D 0x03).2
    let s := (IIC_WriteReg bus s MPU_ADDR 0x19 0x07).2
    let s := (IIC_WriteReg bus s MPU_ADDR 0x37 0x02).2
    let s := { s with slept := s.slept ++ [1000] }
    let s := (IIC_WriteReg bus s MAG_ADDR 0x0A 0x00).2
    let s := { s with slept := s.slept ++ [1000] }
    let s := (IIC_WriteReg bus s MAG_ADDR 0x0A 0x0F).2
    let s := { s with slept := s.slept ++ [1000] }
    let r := IIC_ReadReg bus s MAG_ADDR 0x10 s.ASA 3
    let s := { r.2.2 with ASA := r.2.1 }
    let s := (IIC_WriteReg bus s MAG_ADDR 0x0A 0x00).2
    let s := { s with slept := s.slept ++ [1000] }
    let rw := IIC_ReadReg bus s MAG_ADDR 0x00 [0] 1
    let s := { rw.2.2 with out := rw.2.2.out ++ [OutLine.whoami (rw.2.1.getD 0 0)] }
    let s := (IIC_WriteReg bus s MAG_ADDR 0x0A 0x16).2
    let r2 := IIC_ReadReg bus s MAG_ADDR 0x10 s.ASA 3
    let s := { r2.2.2 with ASA := r2.2.1 }
    { s with out := s.out ++
        [OutLine.asaReport (s.ASA.getD 0 0) (s.ASA.getD 1 0) (s.ASA.getD 2 0)] }

/-- `read_mpu9250`: 14-byte burst read at `0x3B`; on a return other than 14,
print the error and return; otherwise assemble the seven big-endian
`int16_t` values and print the converted line. -/
def read_mpu9250 (bus : Bus) (s : PState) : PState :=
  let r := IIC_ReadReg bus s MPU_ADDR 0x3B (List.replicate 14 0) 14
  if r.1 ≠ 14 then
    { r.2.2 with out := r.2.2.out ++ [OutLine.text "Error leyendo datos del MPU\r\n"] }
  else
    let d := r.2.1
    { r.2.2 with out := r.2.2.out ++ [OutLine.mpuLine
        (accel_g (toInt16 (d.getD 0 0) (d.getD 1 0)))
        (accel_g (toInt16 (d.getD 2 0) (d.getD 3 0)))
        (accel_g (toInt16 (d.getD 4 0) (d.getD 5 0)))
        (temp_c (toInt16 (d.getD 6 0) (d.getD 7 0)))
        (gyro_dps (toInt16 (d.getD 8 0) (d.getD 9 0)))
        (gyro_dps (toInt16 (d.getD 10 0) (d.getD 11 0)))
        (gyro_dps (toInt16 (d.getD 12 0) (d.getD 13 0)))] }

/-- The ST1 status-register read that opens `read_magnetometer` (the source
discards its return status; the local `st1` byte starts uninitialised,
modelled as 0). -/
def magStatusRead (bus : Bus) (s : PState) : Int × List Nat × PState :=
  IIC_ReadReg bus s MAG_ADDR 0x02 [0] 1

/-- The 7-byte data read of `read_magnetometer`, in the state left by the
status read. -/
def magDataRead (bus : Bus) (s : PState) : Int × List Nat × PState :=
  IIC_ReadReg bus (magStatusRead bus s).2.2 MAG_ADDR 0x03 (List.replicate 7 0) 7

/-- `read_magnetometer`: read ST1 (return value ignored); if bit 0 of the
buffer is clear, return silently; read 7 data bytes, on a return other than
7 print the error and return; if bit 3 of the trailing byte is set, return
silently; otherwise assemble the little-endian values, apply the ASA
adjustment and 0.15 scale, and print the converted line. -/
def read_magnetometer (bus : Bus) (s : PState) : PState :=
  let r1 := magStatusRead bus s
  let st1 := r1.2.1.getD 0 0
  let s1 := r1.2.2
  if st1 &&& 0x01 = 0 then s1
  else
    let r2 := IIC_ReadReg bus s1 MAG_ADDR 0x03 (List.replicate 7 0) 7
    let s2 := r2.2.2
    if r2.1 ≠ 7 then
      { s2 with out := s2.out ++ [OutLine.text "Error leyendo datos del magnetometro\r\n"] }
    else
      let d := r2.2.1
      if d.getD 6 0 &&& 0x08 ≠ 0 then s2
      else
        { s2 with out := s2.out ++ [OutLine.magLine
            (mag_uT (toInt16 (d.getD 1 0) (d.getD 0 0)) (s2.ASA.getD 0 0))
            (mag_uT (toInt16 (d.getD 3 0) (d.getD 2 0)) (s2.ASA.getD 1 0))
            (mag_uT (toInt16 (d.getD 5 0) (d.getD 4 0)) (s2.ASA.getD 2 0))] }

/-- One iteration of the `while (1)` body: `read_mpu9250`,
`read_magnetometer`, `usleep(1000000)`. -/
def loopIter (bus : Bus) (s : PState) : PState :=
  let s1 := read_mpu9250 bus s
  let s2 := read_magnetometer bus s1
  { s2 with slept := s2.slept ++ [1000000] }

/-- `n` iterations of the acquisition loop. -/
def loopN (bus : Bus) : Nat → PState → PState
  | 0, s => s
  | n + 1, s => loopN bus n (loopIter bus s)

/-- The state at program start: empty history, zero-initialised static
`ASA[3]`, no output, no sleeps. -/
def pstate0 : PState := { hist := [], ASA := [0, 0, 0], out := [], slept := [] }

/-- `main` up to `n` loop iterations: print the banner, run
`init_mpu9250` with the given `XIic_Initialize` status, then iterate. -/
def mainRun (bus : Bus) (initStatus : Int) (n : Nat) : PState :=
  loopN bus n (init_mpu9250 bus initStatus
    { pstate0 with out := [OutLine.text "Iniciando MPU9250...\n\r"] })

/-- A bus behaviour on which every transaction fails: sends report 0 bytes
sent and receives report 0 bytes received, depositing nothing. -/
def deadBus : Bus where
  sendStatus := fun _ _ _ _ => 0
  recvResult := fun _ _ _ _ => (0, [])

/-- A bus behaviour on which every transaction succeeds, receives depositing
all-zero bytes. -/
def okBus : Bus where
  sendStatus := fun _ _ data _ => (data.length : Int)
  recvResult := fun _ _ len _ => ((len : Int), List.replicate len 0)

/-- A bus behaviour on which every transaction succeeds, the first 3-byte
receive from the magnetometer (the fuse-ROM ASA read) deposits
`[100, 100, 100]`, and every later 3-byte receive (the step-10 confirmation
re-read, issued after the device has left fuse-ROM access mode) deposits
`[7, 8, 9]`. -/
def fuseBus : Bus where
  sendStatus := fun _ _ data _ => (data.length : Int)
  recvResult := fun h _ len _ =>
    if len = 3 then
      if (h.filter (fun t => match t with
            | Txn.recv d l _ => decide (d = MAG_ADDR ∧ l = 3)
            | _ => false)).length = 0
      then (3, [100, 100, 100])
      else (3, [7, 8, 9])
    else ((len : Int), List.replicate len 0)

/-- A bus behaviour on which every transaction succeeds, 1-byte receives
deposit `[1]` (ST1 with the data-ready bit set) and 7-byte receives deposit
a fixed magnetometer sample with the overflow bit clear. -/
def magBus : Bus where
  sendStatus := fun _ _ data _ => (data.length : Int)
  recvResult := fun _ _ len _ =>
    if len = 1 then (1, [1])
    else if len = 7 then (7, [100, 0, 200, 255, 44, 1, 0])
    else ((len : Int), List.replicate len 0)

/-- `bus` with the status component of every 1-byte receive from the
magnetometer replaced by `r`; the deposited bytes and every other response
are unchanged. -/
def setSt1Status (bus : Bus) (r : Int) : Bus where
  sendStatus := bus.sendStatus
  recvResult := fun h dev len stop =>
    if dev = MAG_ADDR ∧ len = 1 then (r, (bus.recvResult h dev len stop).2)
    else bus.recvResult h dev len stop

/-- The (register, value) pairs of the two-byte stop-terminated sends
addressed to the primary device on a trace: the MPU register writes. -/
def mpuRegWrites (h : List Txn) : List (Nat × Nat) :=
  h.filterMap (fun t => match t with
    | Txn.send dev [reg, v] true => if dev = MPU_ADDR then some (reg, v) else none
    | _ => none)

/-- The program state just before an acquisition cycle on a device whose ASA
bytes all read 128 (unit adjustment). -/
def magST : PState := { pstate0 with ASA := [128, 128, 128] }

/-- Whether a console line is one of the fixed diagnostic texts (a `print`
of a string literal, which is how every error is reported), as opposed to a
data report. -/
def OutLine.isText : OutLine → Bool
  | OutLine.text _ => true
  | _ => false

/-- A bus behaviour whose 14-byte receive deposits the sample with raw
accel X = 4096, accel Y = −4096, accel Z = 0, temperature = 0,
gyro X = 1640, gyro Y = gyro Z = 0; every transaction succeeds. -/
def mpuBus : Bus where
  sendStatus := fun _ _ data _ => (data.length : Int)
  recvResult := fun _ _ len _ =>
    if len = 14 then (14, [16, 0, 240, 0, 0, 0, 0, 0, 6, 104, 0, 0, 0, 0])
    else ((len : Int), List.replicate len 0)

/-- The state reached from `pstate0` after the two transactions of a
successful 14-byte MPU burst read. -/
def mpuPost : PState :=
  { pstate0 with hist := [Txn.send MPU_ADDR [0x3B] false, Txn.recv MPU_ADDR 14 true] }

/-- The state reached from `magST` after the four transactions of a
successful magnetometer status read plus 7-byte data read. -/
def magPost : PState :=
  { magST with hist := [Txn.send MAG_ADDR [0x02] false, Txn.recv MAG_ADDR 1 true,
      Txn.send MAG_ADDR [0x03] false, Txn.recv MAG_ADDR 7 true] }

/-! ### State-preservation lemmas for the bus helpers -/

theorem IIC_WriteReg_state (bus : Bus) (s : PState) (dev reg v : Nat) :
    (IIC_WriteReg bus s dev reg v).2 =
      { s with hist := s.hist ++ [Txn.send dev [reg, v] true] } := rfl

theorem IIC_ReadReg_ASA (bus : Bus) (s : PState) (dev reg : Nat)
    (buf : List Nat) (len : Nat) :
    (IIC_ReadReg bus s dev reg buf len).2.2.ASA = s.ASA := by
  simp only [IIC_ReadReg, xiicSend, xiicRecv]
  split <;> rfl

theorem IIC_ReadReg_out (bus : Bus) (s : PState) (dev reg : Nat)
    (buf : List Nat) (len : Nat) :
    (IIC_ReadReg bus s dev reg buf len).2.2.out = s.out := by
  simp only [IIC_ReadReg, xiicSend, xiicRecv]
  split <;> rfl

theorem IIC_ReadReg_slept (bus : Bus) (s : PState) (dev reg : Nat)
    (buf : List Nat) (len : Nat) :
    (IIC_ReadReg bus s dev reg buf len).2.2.slept = s.slept := by
  simp only [IIC_ReadReg, xiicSend, xiicRecv]
  split <;> rfl

theorem IIC_ReadReg_hist (bus : Bus) (s : PState) (dev reg : Nat)
    (buf : List Nat) (len : Nat) :
    ∃ rest, (IIC_ReadReg bus s dev reg buf len).2.2.hist =
      s.hist ++ Txn.send dev [reg] false :: rest := by
  simp only [IIC_ReadReg, xiicSend, xiicRecv]
  split
  · exact ⟨[], rfl⟩
  · exact ⟨[Txn.recv dev len true], by simp⟩

/-! ### Shape lemmas for the two acquisition reads -/

theorem read_mpu9250_ASA (bus : Bus) (s : PState) :
    (read_mpu9250 bus s).ASA = s.ASA := by
  simp only [read_mpu9250]
  split <;> simp [IIC_ReadReg_ASA]

theorem read_mpu9250_slept (bus : Bus) (s : PState) :
    (read_mpu9250 bus s).slept = s.slept := by
  simp only [read_mpu9250]
  split <;> simp [IIC_ReadReg_slept]

theorem read_mpu9250_hist (bus : Bus) (s : PState) :
    ∃ rest, (read_mpu9250 bus s).hist =
      s.hist ++ Txn.send MPU_ADDR [0x3B] false :: rest := by
  simp only [read_mpu9250]
  split <;> simpa using IIC_ReadReg_hist bus s MPU_ADDR 0x3B (List.replicate 14 0) 14

theorem read_magnetometer_noDrdy (bus : Bus) (s : PState)
    (h : (magStatusRead bus s).2.1.getD 0 0 &&& 1 = 0) :
    read_magnetometer bus s = (magStatusRead bus s).2.2 := by
  simp only [read_magnetometer]
  rw [if_pos h]

theorem read_magnetometer_readErr (bus : Bus) (s : PState)
    (h1 : ¬ (magStatusRead bus s).2.1.getD 0 0 &&& 1 = 0)
    (h2 : (magDataRead bus s).1 ≠ 7) :
    read_magnetometer bus s =
      { (magDataRead bus s).2.2 with out := (magDataRead bus s).2.2.out ++
          [OutLine.text "Error leyendo datos del magnetometro\r\n"] } := by
  simp only [magDataRead] at h2 ⊢
  simp only [read_magnetometer]
  rw [if_neg h1, if_pos h2]

theorem read_magnetometer_ovf (bus : Bus) (s : PState)
    (h1 : ¬ (magStatusRead bus s).2.1.getD 0 0 &&& 1 = 0)
    (h2 : (magDataRead bus s).1 = 7)
    (h3 : (magDataRead bus s).2.1.getD 6 0 &&& 8 ≠ 0) :
    read_magnetometer bus s = (magDataRead bus s).2.2 := by
  simp only [magDataRead] at h2 h3 ⊢
  simp only [read_magnetometer]
  rw [if_neg h1, if_neg (not_ne_iff.mpr h2), if_pos h3]

theorem read_magnetometer_emit (bus : Bus) (s : PState)
    (h1 : ¬ (magStatusRead bus s).2.1.getD 0 0 &&& 1 = 0)
    (h2 : (magDataRead bus s).1 = 7)
    (h3 : ¬ (magDataRead bus s).2.1.getD 6 0 &&& 8 ≠ 0) :
    read_magnetometer bus s =
      { (magDataRead bus s).2.2 with out := (magDataRead bus s).2.2.out ++
          [OutLine.magLine
            (mag_uT (toInt16 ((magDataRead bus s).2.1.getD 1 0)
                ((magDataRead bus s).2.1.getD 0 0)) ((magDataRead bus s).2.2.ASA.getD 0 0))
            (mag_uT (toInt16 ((magDataRead bus s).2.1.getD 3 0)
                ((magDataRead bus s).2.1.getD 2 0)) ((magDataRead bus s).2.2.ASA.getD 1 0))
            (mag_uT (toInt16 ((magDataRead bus s).2.1.getD 5 0)
                ((magDataRead bus s).2.1.getD 4 0)) ((magDataRead bus s).2.2.ASA.getD 2 0))] } := by
  simp only [magDataRead] at h2 h3 ⊢
  simp only [read_magnetometer]
  rw [if_neg h1, if_neg (not_ne_iff.mpr h2), if_neg h3]

theorem read_magnetometer_ASA (bus : Bus) (s : PState) :
    (read_magnetometer bus s).ASA = s.ASA := by
  by_cases h1 : (magStatusRead bus s).2.1.getD 0 0 &&& 1 = 0
  · rw [read_magnetometer_noDrdy bus s h1]
    exact IIC_ReadReg_ASA ..
  · by_cases h2 : (magDataRead bus s).1 = 7
    · by_cases h3 : (magDataRead bus s).2.1.getD 6 0 &&& 8 ≠ 0
      · rw [read_magnetometer_ovf bus s h1 h2 h3]
        rw [magDataRead, IIC_ReadReg_ASA, magStatusRead, IIC_ReadReg_ASA]
      · rw [read_magnetometer_emit bus s h1 h2 h3]
        show (magDataRead bus s).2.2.ASA = s.ASA
        rw [magDataRead, IIC_ReadReg_ASA, magStatusRead, IIC_ReadReg_ASA]
    · rw [read_magnetometer_readErr bus s h1 h2]
      show (magDataRead bus s).2.2.ASA = s.ASA
      rw [magDataRead, IIC_ReadReg_ASA, magStatusRead, IIC_ReadReg_ASA]

theorem read_magnetometer_slept (bus : Bus) (s : PState) :
    (read_magnetometer bus s).slept = s.slept := by
  by_cases h1 : (magStatusRead bus s).2.1.getD 0 0 &&& 1 = 0
  · rw [read_magnetometer_noDrdy bus s h1]
    exact IIC_ReadReg_slept ..
  · by_cases h2 : (magDataRead bus s).1 = 7
    · by_cases h3 : (magDataRead bus s).2.1.getD 6 0 &&& 8 ≠ 0
      · rw [read_magnetometer_ovf bus s h1 h2 h3]
        rw [magDataRead, IIC_ReadReg_slept, magStatusRead, IIC_ReadReg_slept]
      · rw [read_magnetometer_emit bus s h1 h2 h3]
        show (magDataRead bus s).2.2.slept = s.slept
        rw [magDataRead, IIC_ReadReg_slept, magStatusRead, IIC_ReadReg_slept]
    · rw [read_magnetometer_readErr bus s h1 h2]
      show (magDataRead bus s).2.2.slept = s.slept
      rw [magDataRead, IIC_ReadReg_slept, magStatusRead, IIC_ReadReg_slept]

theorem IIC_WriteReg_out (bus : Bus) (s : PState) (dev reg v : Nat) :
    (IIC_WriteReg bus s dev reg v).2.out = s.out := rfl

theorem magStatusRead_out (bus : Bus) (s : PState) :
    (magStatusRead bus s).2.2.out = s.out := IIC_ReadReg_out ..

theorem magDataRead_out (bus : Bus) (s : PState) :
    (magDataRead bus s).2.2.out = s.out := by
  rw [magDataRead, IIC_ReadReg_out, magStatusRead_out]

theorem magStatusRead_hist (bus : Bus) (s : PState) :
    ∃ rest, (magStatusRead bus s).2.2.hist = s.hist ++ rest := by
  obtain ⟨r, h⟩ := IIC_ReadReg_hist bus s MAG_ADDR 0x02 [0] 1
  exact ⟨_, h⟩

theorem magDataRead_hist (bus : Bus) (s : PState) :
    ∃ rest, (magDataRead bus s).2.2.hist = s.hist ++ rest := by
  obtain ⟨r1, h1⟩ := magStatusRead_hist bus s
  obtain ⟨r2, h2⟩ := IIC_ReadReg_hist bus (magStatusRead bus s).2.2 MAG_ADDR 0x03
    (List.replicate 7 0) 7
  rw [magDataRead]
  exact ⟨_, by rw [h2, h1, List.append_assoc]⟩

theorem read_magnetometer_hist (bus : Bus) (s : PState) :
    ∃ rest, (read_magnetometer bus s).hist = s.hist ++ rest := by
  by_cases h1 : (magStatusRead bus s).2.1.getD 0 0 &&& 1 = 0
  · rw [read_magnetometer_noDrdy bus s h1]
    exact magStatusRead_hist bus s
  · by_cases h2 : (magDataRead bus s).1 = 7
    · by_cases h3 : (magDataRead bus s).2.1.getD 6 0 &&& 8 ≠ 0
      · rw [read_magnetometer_ovf bus s h1 h2 h3]
        exact magDataRead_hist bus s
      · rw [read_magnetometer_emit bus s h1 h2 h3]
        exact magDataRead_hist bus s
    · rw [read_magnetometer_readErr bus s h1 h2]
      exact magDataRead_hist bus s

/-! ### Loop lemmas -/

theorem loopIter_ASA (bus : Bus) (s : PState) : (loopIter bus s).ASA = s.ASA := by
  simp [loopIter, read_magnetometer_ASA, read_mpu9250_ASA]

theorem loopIter_slept (bus : Bus) (s : PState) :
    (loopIter bus s).slept = s.slept ++ [1000000] := by
  simp [loopIter, read_magnetometer_slept, read_mpu9250_slept]

theorem loopIter_hist (bus : Bus) (s : PState) :
    ∃ rest, (loopIter bus s).hist = s.hist ++ Txn.send MPU_ADDR [0x3B] false :: rest := by
  obtain ⟨r1, h1⟩ := read_mpu9250_hist bus s
  obtain ⟨r2, h2⟩ := read_magnetometer_hist bus (read_mpu9250 bus s)
  exact ⟨r1 ++ r2, by simp [loopIter, h2, h1]⟩

theorem loopN_ASA (bus : Bus) (n : Nat) (s : PState) : (loopN bus n s).ASA = s.ASA := by
  induction n generalizing s with
  | zero => rfl
  | succ n ih => rw [loopN, ih, loopIter_ASA]

/-! ### Trace and output lemmas for initialization -/

theorem mpuRegWrites_append (a b : List Txn) :
    mpuRegWrites (a ++ b) = mpuRegWrites a ++ mpuRegWrites b := by
  simp [mpuRegWrites, List.filterMap_append]

theorem mpuRegWrites_WriteReg (bus : Bus) (s : PState) (dev reg v : Nat) :
    mpuRegWrites ((IIC_WriteReg bus s dev reg v).2.hist) =
      mpuRegWrites s.hist ++ (if dev = MPU_ADDR then [(reg, v)] else []) := by
  rw [IIC_WriteReg_state]
  show mpuRegWrites (s.hist ++ [Txn.send dev [reg, v] true]) = _
  rw [mpuRegWrites_append]
  congr 1
  simp only [mpuRegWrites, List.filterMap]
  split <;> simp_all

theorem mpuRegWrites_ReadReg (bus : Bus) (s : PState) (dev reg : Nat)
    (buf : List Nat) (len : Nat) :
    mpuRegWrites ((IIC_ReadReg bus s dev reg buf len).2.2.hist) =
      mpuRegWrites s.hist := by
  simp only [IIC_ReadReg, xiicSend, xiicRecv]
  split <;> simp [mpuRegWrites, List.filterMap_append, List.filterMap]

theorem init_mpu9250_noText (bus : Bus) (s : PState) :
    (init_mpu9250 bus 0 s).out.filter OutLine.isText =
      s.out.filter OutLine.isText := by
  simp [init_mpu9250, IIC_WriteReg_out, IIC_ReadReg_out, List.filter_append,
    OutLine.isText]

theorem setSt1_ReadReg_ne1 (bus : Bus) (r : Int) (s : PState) (dev reg : Nat)
    (buf : List Nat) (len : Nat) (hlen : len ≠ 1) :
    IIC_ReadReg (setSt1Status bus r) s dev reg buf len =
      IIC_ReadReg bus s dev reg buf len := by
  simp only [IIC_ReadReg, xiicSend, xiicRecv, setSt1Status]
  simp [hlen]

/-! ### Claims -/

/-- C1, counterexample: on a bus whose `XIic_Initialize` status is 1
(failure) and on which every transaction fails, `main` logs the
initialization error but still enters the acquisition loop: after one
iteration the MPU-read error has also been logged, the `read_mpu9250` and
`read_magnetometer` address writes are on the bus trace, and the 1-second
cadence sleep has executed — contradicting "execution aborts before the
acquisition loop is entered". -/
theorem C1_counterexample :
    (mainRun deadBus 1 1).out =
      [OutLine.text "Iniciando MPU9250...\n\r",
       OutLine.text "Error inicializando IIC\r\n",
       OutLine.text "Error leyendo datos del MPU\r\n"] ∧
    (mainRun deadBus 1 1).hist =
      [Txn.send MPU_ADDR [0x3B] false, Txn.send MAG_ADDR [0x02] false] ∧
    (mainRun deadBus 1 1).slept = [1000000] := by
  decide

/-- C1, amended: if bus initialization fails, the failure is logged and
`init_mpu9250` returns at once — it issues no bus transaction and performs
no sleep — but `main` still enters the acquisition loop, whose first
iteration issues the `read_mpu9250` address write and performs the cadence
sleep. -/
theorem C1_theorem (bus : Bus) (st : Int) (s : PState) (h : st ≠ 0) :
    init_mpu9250 bus st s =
      { s with out := s.out ++ [OutLine.text "Error inicializando IIC\r\n"] } ∧
    (mainRun bus st 1).hist.take 1 = [Txn.send MPU_ADDR [0x3B] false] ∧
    (mainRun bus st 1).slept = [1000000] := by
  have hinit : init_mpu9250 bus st
      { pstate0 with out := [OutLine.text "Iniciando MPU9250...\n\r"] } =
      { hist := [], ASA := [0, 0, 0],
        out := [OutLine.text "Iniciando MPU9250...\n\r",
          OutLine.text "Error inicializando IIC\r\n"], slept := [] } := by
    simp [init_mpu9250, h, pstate0]
  have hmain : mainRun bus st 1 = loopIter bus
      { hist := [], ASA := [0, 0, 0],
        out := [OutLine.text "Iniciando MPU9250...\n\r",
          OutLine.text "Error inicializando IIC\r\n"], slept := [] } := by
    show loopN bus 1 (init_mpu9250 bus st
      { pstate0 with out := [OutLine.text "Iniciando MPU9250...\n\r"] }) = _
    rw [hinit]
    rfl
  refine ⟨by simp [init_mpu9250, h], ?_, ?_⟩
  · obtain ⟨rest, hr⟩ := loopIter_hist bus
      { hist := [], ASA := [0, 0, 0],
        out := [OutLine.text "Iniciando MPU9250...\n\r",
          OutLine.text "Error inicializando IIC\r\n"], slept := [] }
    rw [hmain, hr]
    rfl
  · rw [hmain, loopIter_slept]
    rfl

/-- Witness for C1 at the all-failing bus and initialization status 1. -/
theorem C1_witness :
    (1 : Int) ≠ 0 ∧
    (init_mpu9250 deadBus 1 pstate0 =
      { pstate0 with out := pstate0.out ++ [OutLine.text "Error inicializando IIC\r\n"] } ∧
     (mainRun deadBus 1 1).hist.take 1 = [Txn.send MPU_ADDR [0x3B] false] ∧
     (mainRun deadBus 1 1).slept = [1000000]) :=
  ⟨by decide, C1_theorem deadBus 1 pstate0 (by decide)⟩

/-- C2, counterexample: on a bus on which the fuse-ROM ASA read (the first
3-byte magnetometer receive) deposits `[100, 100, 100]` and the step-10
confirmation re-read deposits `[7, 8, 9]`, initialization ends with
`ASA = [7, 8, 9]`: the confirmation re-read rewrites the stored ASA bytes
after the fuse-ROM read, contradicting "never rewritten afterward". -/
theorem C2_counterexample :
    fuseBus.recvResult [] MAG_ADDR 3 true = (3, [100, 100, 100]) ∧
    (init_mpu9250 fuseBus 0 pstate0).ASA = [7, 8, 9] := by
  decide

/-- C2, amended: the ASA bytes are written by the fuse-ROM read and written
again by the step-10 confirmation re-read (which may store different
values); after initialization completes, no acquisition-cycle operation
changes them: any number of loop iterations preserves the stored ASA. -/
theorem C2_theorem (bus : Bus) (n : Nat) (s : PState) :
    (loopN bus n s).ASA = s.ASA :=
  loopN_ASA bus n s

/-- C3, counterexample: on a bus on which every transaction fails (each
send reports 0 bytes transferred), every initialization write fails — the
trace begins with the failed wake-up write — yet initialization logs no
error line at all: its only output is the WHO_AM_I and ASA reports. This
contradicts "every send or receive whose return is not the expected byte
count is logged". -/
theorem C3_counterexample :
    deadBus.sendStatus [] MPU_ADDR [0x6B, 0x00] true = 0 ∧
    (init_mpu9250 deadBus 0 pstate0).hist.take 1 =
      [Txn.send MPU_ADDR [0x6B, 0x00] true] ∧
    (init_mpu9250 deadBus 0 pstate0).out =
      [OutLine.whoami 0, OutLine.asaReport 0 0 0] := by
  decide

/-- C3, amended: only the two acquisition-cycle burst reads log their I/O
failures — a failed 14-byte MPU read and a failed 7-byte magnetometer data
read each append exactly their error line and abandon the cycle — while
initialization (under a successful `XIic_Initialize`) never logs any
diagnostic text, whatever the outcome of its transactions; in all cases
execution continues. -/
theorem C3_theorem (bus : Bus) (s : PState) :
    ((IIC_ReadReg bus s MPU_ADDR 0x3B (List.replicate 14 0) 14).1 ≠ 14 →
      (read_mpu9250 bus s).out =
        s.out ++ [OutLine.text "Error leyendo datos del MPU\r\n"]) ∧
    ((magStatusRead bus s).2.1.getD 0 0 &&& 1 ≠ 0 → (magDataRead bus s).1 ≠ 7 →
      (read_magnetometer bus s).out =
        s.out ++ [OutLine.text "Error leyendo datos del magnetometro\r\n"]) ∧
    (init_mpu9250 bus 0 s).out.filter OutLine.isText =
      s.out.filter OutLine.isText := by
  refine ⟨?_, ?_, init_mpu9250_noText bus s⟩
  · intro h
    simp only [read_mpu9250]
    rw [if_pos h]
    simp [IIC_ReadReg_out]
  · intro h1 h2
    rw [read_magnetometer_readErr bus s h1 h2]
    simp [magDataRead_out]

/-- Witness for C3 at the all-failing bus: the MPU burst read fails and
exactly the MPU error line is logged. -/
theorem C3_witness :
    (IIC_ReadReg deadBus pstate0 MPU_ADDR 0x3B (List.replicate 14 0) 14).1 ≠ 14 ∧
    (read_mpu9250 deadBus pstate0).out =
      pstate0.out ++ [OutLine.text "Error leyendo datos del MPU\r\n"] :=
  ⟨by decide, (C3_theorem deadBus pstate0).1 (by decide)⟩

/-- C4: `read_magnetometer` emits a converted output line exactly when the
data-ready bit (bit 0) of the status byte is 1, the 7-byte data read returns 7,
and the overflow bit (bit 3 of the trailing byte) is 0; when the data-ready
bit is 0, or the read returns 7 with the overflow bit set, the cycle
produces no output at all — in particular no error line. -/
theorem C4_theorem (bus : Bus) (s : PState) :
    ((∃ mx my mz, (read_magnetometer bus s).out =
        s.out ++ [OutLine.magLine mx my mz]) ↔
      ((magStatusRead bus s).2.1.getD 0 0 &&& 1 ≠ 0 ∧ (magDataRead bus s).1 = 7 ∧
        (magDataRead bus s).2.1.getD 6 0 &&& 8 = 0)) ∧
    (((magStatusRead bus s).2.1.getD 0 0 &&& 1 = 0 ∨
        ((magDataRead bus s).1 = 7 ∧ (magDataRead bus s).2.1.getD 6 0 &&& 8 ≠ 0)) →
      (read_magnetometer bus s).out = s.out) := by
  constructor
  · constructor
    · rintro ⟨mx, my, mz, hout⟩
      by_cases h1 : (magStatusRead bus s).2.1.getD 0 0 &&& 1 = 0
      · rw [read_magnetometer_noDrdy bus s h1, magStatusRead_out] at hout
        exact absurd hout (by simp)
      · by_cases h2 : (magDataRead bus s).1 = 7
        · by_cases h3 : (magDataRead bus s).2.1.getD 6 0 &&& 8 ≠ 0
          · rw [read_magnetometer_ovf bus s h1 h2 h3, magDataRead_out] at hout
            exact absurd hout (by simp)
          · exact ⟨h1, h2, not_not.mp h3⟩
        · rw [read_magnetometer_readErr bus s h1 h2] at hout
          simp only [magDataRead_out] at hout
          simp at hout
    · rintro ⟨h1, h2, h3⟩
      refine ⟨mag_uT (toInt16 ((magDataRead bus s).2.1.getD 1 0)
          ((magDataRead bus s).2.1.getD 0 0)) ((magDataRead bus s).2.2.ASA.getD 0 0),
        mag_uT (toInt16 ((magDataRead bus s).2.1.getD 3 0)
          ((magDataRead bus s).2.1.getD 2 0)) ((magDataRead bus s).2.2.ASA.getD 1 0),
        mag_uT (toInt16 ((magDataRead bus s).2.1.getD 5 0)
          ((magDataRead bus s).2.1.getD 4 0)) ((magDataRead bus s).2.2.ASA.getD 2 0), ?_⟩
      rw [read_magnetometer_emit bus s h1 h2 (not_ne_iff.mpr h3)]
      simp [magDataRead_out]
  · rintro (h1 | ⟨h2, h3⟩)
    · rw [read_magnetometer_noDrdy bus s h1, magStatusRead_out]
    · by_cases h1 : (magStatusRead bus s).2.1.getD 0 0 &&& 1 = 0
      · rw [read_magnetometer_noDrdy bus s h1, magStatusRead_out]
      · rw [read_magnetometer_ovf bus s h1 h2 h3, magDataRead_out]

/-- Witness for C4 at the all-zero-deposit bus: the status byte is 0 (data
not ready) and the cycle produces no output. -/
theorem C4_witness :
    ((magStatusRead okBus pstate0).2.1.getD 0 0 &&& 1 = 0 ∨
      ((magDataRead okBus pstate0).1 = 7 ∧
        (magDataRead okBus pstate0).2.1.getD 6 0 &&& 8 ≠ 0)) ∧
    (read_magnetometer okBus pstate0).out = pstate0.out :=
  ⟨Or.inl (by decide), (C4_theorem okBus pstate0).2 (Or.inl (by decide))⟩

/-- C5: whenever the 14-byte burst read at `0x3B` returns 14 and deposits
bytes `b`, `read_mpu9250` emits the converted line whose seven raw values
are assembled most-significant-byte-first from the byte pairs at offsets
[0,1], [2,3], [4,5], [6,7], [8,9], [10,11], [12,13]. -/
theorem C5_theorem (bus : Bus) (s : PState) (b : List Nat) (t : PState)
    (h : IIC_ReadReg bus s MPU_ADDR 0x3B (List.replicate 14 0) 14 = (14, b, t)) :
    read_mpu9250 bus s = { t with out := t.out ++ [OutLine.mpuLine
      (accel_g (toInt16 (b.getD 0 0) (b.getD 1 0)))
      (accel_g (toInt16 (b.getD 2 0) (b.getD 3 0)))
      (accel_g (toInt16 (b.getD 4 0) (b.getD 5 0)))
      (temp_c (toInt16 (b.getD 6 0) (b.getD 7 0)))
      (gyro_dps (toInt16 (b.getD 8 0) (b.getD 9 0)))
      (gyro_dps (toInt16 (b.getD 10 0) (b.getD 11 0)))
      (gyro_dps (toInt16 (b.getD 12 0) (b.getD 13 0)))] } := by
  simp only [show List.replicate 14 (0 : Nat) = [0,0,0,0,0,0,0,0,0,0,0,0,0,0] from rfl] at h
  simp [read_mpu9250, h]

/-- Witness for C5 at the all-succeeding bus, which deposits 14 zero bytes. -/
theorem C5_witness :
    IIC_ReadReg okBus pstate0 MPU_ADDR 0x3B (List.replicate 14 0) 14 =
      (14, List.replicate 14 0, mpuPost) ∧
    read_mpu9250 okBus pstate0 = { mpuPost with out := mpuPost.out ++
      [OutLine.mpuLine (accel_g (toInt16 0 0)) (accel_g (toInt16 0 0))
        (accel_g (toInt16 0 0)) (temp_c (toInt16 0 0)) (gyro_dps (toInt16 0 0))
        (gyro_dps (toInt16 0 0)) (gyro_dps (toInt16 0 0))] } :=
  ⟨by decide, C5_theorem okBus pstate0 (List.replicate 14 0) mpuPost (by decide)⟩

/-- C6: the physical conversions are acceleration = raw / 4096 (g),
temperature = raw / 340 + 36.53 (°C), angular rate = raw / 16.4 (dps); in
particular raw 4096 ↦ 1 g, raw −4096 ↦ −1 g, raw temperature 0 ↦ 36.53 °C,
raw gyro 1640 ↦ 100 dps, and on a bus delivering exactly those raw values
`read_mpu9250` prints the line `1, −1, 0 g | 36.53 °C | 100, 0, 0 dps`. -/
theorem C6_theorem :
    (∀ raw : Int, accel_g raw = (raw : ℚ) / 4096 ∧
      temp_c raw = (raw : ℚ) / 340 + 36.53 ∧ gyro_dps raw = (raw : ℚ) / 16.4) ∧
    accel_g 4096 = 1 ∧ accel_g (-4096) = -1 ∧ temp_c 0 = 36.53 ∧
    gyro_dps 1640 = 100 ∧
    (read_mpu9250 mpuBus pstate0).out =
      [OutLine.mpuLine 1 (-1) 0 36.53 100 0 0] := by
  have hb : IIC_ReadReg mpuBus { hist := [], ASA := [0, 0, 0], out := [], slept := [] }
      MPU_ADDR 0x3B [0,0,0,0,0,0,0,0,0,0,0,0,0,0] 14 =
      (14, [16, 0, 240, 0, 0, 0, 0, 0, 6, 104, 0, 0, 0, 0], mpuPost) := by decide
  refine ⟨fun raw => ⟨rfl, rfl, rfl⟩, ?_, ?_, ?_, ?_, ?_⟩
  · norm_num [accel_g, ACCEL_SENS]
  · norm_num [accel_g, ACCEL_SENS]
  · norm_num [temp_c]
  · norm_num [gyro_dps, GYRO_SENS]
  · simp [read_mpu9250, hb, mpuPost, pstate0, List.getD,
      show toInt16 16 0 = 4096 from by decide,
      show toInt16 240 0 = -4096 from by decide,
      show toInt16 0 0 = 0 from by decide,
      show toInt16 6 104 = 1640 from by decide]
    norm_num [accel_g, temp_c, gyro_dps, ACCEL_SENS, GYRO_SENS]

/-- C7: whenever the magnetometer status byte has the data-ready bit set,
the 7-byte data read returns 7 depositing bytes `d`, and the overflow bit
of the trailing byte is clear, `read_magnetometer` emits the line whose
three raw values are assembled little-endian from byte pairs (1,0), (3,2),
(5,4) and scaled by `mag_uT` with the stored ASA bytes; moreover the
adjustment factor at ASA byte 128 is exactly 1 and raw 100 with ASA 128
yields exactly 15 microtesla. -/
theorem C7_theorem (bus : Bus) (s : PState) (d : List Nat) (t : PState)
    (h1 : (magStatusRead bus s).2.1.getD 0 0 &&& 1 ≠ 0)
    (h : magDataRead bus s = (7, d, t))
    (h3 : d.getD 6 0 &&& 8 = 0) :
    read_magnetometer bus s = { t with out := t.out ++ [OutLine.magLine
      (mag_uT (toInt16 (d.getD 1 0) (d.getD 0 0)) (t.ASA.getD 0 0))
      (mag_uT (toInt16 (d.getD 3 0) (d.getD 2 0)) (t.ASA.getD 1 0))
      (mag_uT (toInt16 (d.getD 5 0) (d.getD 4 0)) (t.ASA.getD 2 0))] } ∧
    adjFactor 128 = 1 ∧ mag_uT 100 128 = 15 := by
  refine ⟨?_, by norm_num [adjFactor], by norm_num [mag_uT, adjFactor]⟩
  have he := read_magnetometer_emit bus s h1 (by rw [h])
    (by rw [h]; exact not_ne_iff.mpr h3)
  rw [h] at he
  simpa using he

/-- Witness for C7 at a bus with data ready, a fixed in-range sample, and
all ASA bytes 128. -/
theorem C7_witness :
    ((magStatusRead magBus magST).2.1.getD 0 0 &&& 1 ≠ 0) ∧
    magDataRead magBus magST = (7, [100, 0, 200, 255, 44, 1, 0], magPost) ∧
    (([100, 0, 200, 255, 44, 1, 0] : List Nat).getD 6 0 &&& 8 = 0) ∧
    (read_magnetometer magBus magST = { magPost with out := magPost.out ++
        [OutLine.magLine (mag_uT (toInt16 0 100) 128)
          (mag_uT (toInt16 255 200) 128) (mag_uT (toInt16 1 44) 128)] } ∧
      adjFactor 128 = 1 ∧ mag_uT 100 128 = 15) :=
  ⟨by decide, by decide, by decide,
    C7_theorem magBus magST [100, 0, 200, 255, 44, 1, 0] magPost
      (by decide) (by decide) (by decide)⟩

/-- C8: if the one-byte address-write phase of `IIC_ReadReg` does not report
exactly one byte transferred, the call returns the status of that phase and the
untouched buffer, and the trace gains only the address write — no receive is
ever issued; otherwise the call performs the `len`-byte receive and returns
the status of the receive phase, the updated buffer, and the trace extended by
both phases. -/
theorem C8_theorem (bus : Bus) (s : PState) (dev reg : Nat)
    (buf : List Nat) (len : Nat) :
    (bus.sendStatus s.hist dev [reg] false ≠ 1 →
      IIC_ReadReg bus s dev reg buf len =
        (bus.sendStatus s.hist dev [reg] false, buf,
         { s with hist := s.hist ++ [Txn.send dev [reg] false] })) ∧
    (bus.sendStatus s.hist dev [reg] false = 1 →
      IIC_ReadReg bus s dev reg buf len =
        ((bus.recvResult (s.hist ++ [Txn.send dev [reg] false]) dev len true).1,
         overwrite buf
           (((bus.recvResult (s.hist ++ [Txn.send dev [reg] false]) dev len true).2.take
             len).map (fun b => b % 256)),
         { s with hist := (s.hist ++ [Txn.send dev [reg] false]) ++
             [Txn.recv dev len true] })) := by
  constructor
  · intro h
    simp only [IIC_ReadReg, xiicSend]
    rw [if_pos h]
  · intro h
    simp only [IIC_ReadReg, xiicSend, xiicRecv]
    rw [if_neg (not_ne_iff.mpr h)]

/-- Witness for C8 at the all-failing bus: the address write reports 0
bytes, so the call aborts with that status and an unchanged buffer, and the
trace shows the address write only. -/
theorem C8_witness :
    deadBus.sendStatus pstate0.hist MPU_ADDR [0x3B] false ≠ 1 ∧
    IIC_ReadReg deadBus pstate0 MPU_ADDR 0x3B [0] 14 =
      (deadBus.sendStatus pstate0.hist MPU_ADDR [0x3B] false, [0],
       { pstate0 with hist := pstate0.hist ++ [Txn.send MPU_ADDR [0x3B] false] }) :=
  ⟨by decide, (C8_theorem deadBus pstate0 MPU_ADDR 0x3B [0] 14).1 (by decide)⟩

/-- C9, counterexample: on the all-succeeding bus (and on any bus — see the
amended theorem), the MPU register writes issued by initialization include
the write `(0x1D, 0x03)` to the second accelerometer-configuration
register, which is not among the four registers the claim lists, so the
configuration step writes five primary-device registers, not exactly
four. -/
theorem C9_counterexample :
    mpuRegWrites (init_mpu9250 okBus 0 pstate0).hist =
      [(0x6B, 0x00), (0x1A, 0x03), (0x1B, 0x18), (0x1C, 0x10), (0x1D, 0x03),
       (0x19, 0x07), (0x37, 0x02)] ∧
    (0x1D, 0x03) ∈ mpuRegWrites (init_mpu9250 okBus 0 pstate0).hist ∧
    (0x1D : Nat) ∉ ([0x1A, 0x1B, 0x1C, 0x19] : List Nat) := by
  decide

/-- C9, amended: on every bus, initialization issues exactly seven MPU
register writes, in order: the wake-up write `(0x6B, 0x00)`, the five
configuration writes `(0x1A, 0x03)`, `(0x1B, 0x18)`, `(0x1C, 0x10)`,
`(0x1D, 0x03)`, `(0x19, 0x07)` — the four registers the spec lists plus
`0x1D` — and the bypass-enable write `(0x37, 0x02)`. -/
theorem C9_theorem (bus : Bus) (s : PState) :
    mpuRegWrites (init_mpu9250 bus 0 s).hist =
      mpuRegWrites s.hist ++
        [(0x6B, 0x00), (0x1A, 0x03), (0x1B, 0x18), (0x1C, 0x10), (0x1D, 0x03),
         (0x19, 0x07), (0x37, 0x02)] := by
  simp [init_mpu9250, mpuRegWrites_WriteReg, mpuRegWrites_ReadReg, MPU_ADDR,
    MAG_ADDR]

/-- C10: `read_magnetometer` is insensitive to the return status of the
1-byte ST1 read — replacing that status by any value `r` whatsoever changes
nothing about the behaviour of the cycle — and when the address-write phase
of the status read fails outright (leaving the status buffer at 0), the
cycle ends silently: nothing is logged and no output is produced. Whether
the data read happens depends only on the deposited buffer contents. -/
theorem C10_theorem (bus : Bus) (r : Int) (s : PState) :
    read_magnetometer (setSt1Status bus r) s = read_magnetometer bus s ∧
    (bus.sendStatus s.hist MAG_ADDR [0x02] false ≠ 1 →
      (read_magnetometer bus s).out = s.out) := by
  constructor
  · have h2 : (magStatusRead (setSt1Status bus r) s).2 = (magStatusRead bus s).2 := by
      simp only [magStatusRead, IIC_ReadReg, xiicSend, xiicRecv, setSt1Status]
      split <;> simp
    simp only [read_magnetometer]
    rw [h2, setSt1_ReadReg_ne1 bus r ((magStatusRead bus s).2.2) MAG_ADDR 0x03
      (List.replicate 7 0) 7 (by norm_num)]
  · intro h
    have h1 : (magStatusRead bus s).2.1.getD 0 0 &&& 1 = 0 := by
      simp only [magStatusRead, IIC_ReadReg, xiicSend]
      rw [if_pos h]
      simp
    rw [read_magnetometer_noDrdy bus s h1, magStatusRead_out]

/-- Witness for C10 at the all-failing bus: the ST1 address write fails and
the cycle produces no output and no log line. -/
theorem C10_witness :
    deadBus.sendStatus pstate0.hist MAG_ADDR [0x02] false ≠ 1 ∧
    (read_magnetometer deadBus pstate0).out = pstate0.out :=
  ⟨by decide, (C10_theorem deadBus 5 pstate0).2 (by decide)⟩

end MPU9250
